import Mathlib

/-!
Verification of the Neko container port allocator and launcher core
(`browser_manager/neko_browser_launcher.py` and
`browser_manager/browser_launcher.py`), shallowly embedded in Lean.

External effects (TCP/UDP port probes, the `docker` CLI, the random jitter
draws, the filesystem) are modelled as oracle parameters; the persistent
JSON state file is modelled by explicitly threading the parsed state
document through the operations, mirroring the `_read_state` /
`_write_state` discipline of the source: each public operation reads the
previously persisted state and persists exactly once, at its end, on
success.
-/

namespace BrowserManager

/-- `_WEBRTC_RANGE_SIZE` from `browser_config.py`: the WebRTC UDP range is
101 consecutive ports. -/
def webrtcRangeSize : Nat := 101

/-- One allocation record: the value stored under a container name in the
`allocations` mapping of the state file. -/
structure Alloc where
  server_port : Nat
  debug_port : Nat
  webrtc_port_start : Nat
deriving DecidableEq, Repr

/-- The state document persisted in `/tmp/neko_port_state.json`:
three search cursors plus the allocation mapping.  The Python `dict` is
modelled as an insertion-ordered association list with unique keys. -/
structure PortState where
  next_server_port : Nat
  next_debug_port : Nat
  next_webrtc_port : Nat
  allocations : List (String × Alloc)
deriving DecidableEq, Repr

/-- `_DEFAULT_STATE` of the source: cursors 8081 / 9224 / 52000 and an
empty allocation mapping. -/
def defaultPortState : PortState :=
  { next_server_port := 8081
    next_debug_port := 9224
    next_webrtc_port := 52000
    allocations := [] }

/-- Python `dict` lookup on the modelled `allocations` mapping. -/
def lookupA (name : String) : List (String × Alloc) → Option Alloc
  | [] => none
  | a :: rest => if a.1 = name then some a.2 else lookupA name rest

/-- Python `del allocations[name]` (keys are unique, so deleting the one
entry with the key equals filtering it out). -/
def eraseKey (name : String) (l : List (String × Alloc)) : List (String × Alloc) :=
  l.filter (fun a => a.1 != name)

/-- ASCII alphanumeric, the character class `[a-zA-Z0-9]` of the
validation regex. -/
def isAsciiAlnum (c : Char) : Bool := c.isAlpha || c.isDigit

/-- A character of the class `[a-zA-Z0-9_.\-]` of the validation regex. -/
def isNameTailChar (c : Char) : Bool := isAsciiAlnum c || c = '_' || c = '.' || c = '-'

/-- Whether a character sequence is fully matched by the regex body
`[a-zA-Z0-9][a-zA-Z0-9_.\-]*`. -/
def regexBodyMatch : List Char → Bool
  | [] => false
  | c :: cs => isAsciiAlnum c && cs.all isNameTailChar

/-- Modelled from the spec's words (for comparison with the code's
behaviour): a full anchored match of `^[A-Za-z0-9][A-Za-z0-9_.\-]*$`,
i.e. the whole string is consumed by the regex body. -/
def specRegexMatch (s : String) : Bool := regexBodyMatch s.data

/-- The source's `re.match(r'^[a-zA-Z0-9][a-zA-Z0-9_.\-]*$', name)`
test in `_validate_docker_name`.  In Python, `$` matches at the end of
the string or just before a single trailing newline, so a name with one
trailing `'\n'` whose remainder matches the body is accepted. -/
def pyReMatchName (s : String) : Bool :=
  regexBodyMatch s.data ||
    (match s.data.getLast? with
     | some c => if c = '\n' then regexBodyMatch s.data.dropLast else false
     | none => false)

/-- Result of the `subprocess.run(["docker", "ps", ...])` call inside
`_running_docker_names`: either the call raised (timeout expired, or the
`docker` binary is missing), or it completed with an exit code and the
already-stripped standard output. -/
inductive PsOutcome where
  | raises : PsOutcome
  | completes (returncode : Int) (stdout : String) : PsOutcome

/-- An ASCII whitespace character, as stripped by Python `str.strip`. -/
def isPyWhitespace (c : Char) : Bool :=
  c = ' ' || c = '\n' || c = '\t' || c = '\r' || c = '\x0b' || c = '\x0c'

/-- Split a character list at newlines (Python `str.splitlines` for
newline-separated output). -/
def splitOnNewline : List Char → List (List Char)
  | [] => [[]]
  | c :: rest =>
    let r := splitOnNewline rest
    if c = '\n' then [] :: r
    else
      match r with
      | [] => [[c]]
      | hd :: tl => (c :: hd) :: tl

/-- Python `s.strip().splitlines()` for newline-separated container
names: the empty output yields the empty list. -/
def stripSplitlines (s : String) : List String :=
  let t := ((s.data.dropWhile isPyWhitespace).reverse.dropWhile isPyWhitespace).reverse
  if t = [] then [] else (splitOnNewline t).map String.mk

/-- `_running_docker_names`: builds the set of running names from the
subprocess standard output, returning `none` only when the subprocess
call itself raised.  Mirroring the source, the `returncode` of a
completed call is ignored (there is no `check=True`). -/
def running_docker_names : PsOutcome → Option (List String)
  | .raises => none
  | .completes _ out => some (stripSplitlines out)

/-- `_purge_dead_allocations`: skip entirely when the query returned
`none`; otherwise keep exactly the allocations whose name is listed. -/
def purge_dead_allocations (running : Option (List String)) (st : PortState) : PortState :=
  match running with
  | none => st
  | some r => { st with allocations := st.allocations.filter (fun a => r.contains a.1) }

/-- `_maybe_reset_cursors`: reset the three cursors to the defaults when
no allocations remain. -/
def maybe_reset_cursors (st : PortState) : PortState :=
  if st.allocations = [] then
    { st with
        next_server_port := defaultPortState.next_server_port
        next_debug_port := defaultPortState.next_debug_port
        next_webrtc_port := defaultPortState.next_webrtc_port }
  else st

/-- `_release_ports_unlocked`: drop the name's allocation if present; no
locks, no persistence. -/
def release_ports_unlocked (name : String) (st : PortState) : PortState :=
  if (lookupA name st.allocations).isSome then
    { st with allocations := eraseKey name st.allocations }
  else st

/-- Errors raised by the port-manager functions: `ValueError` from
`_validate_docker_name`, or the `RuntimeError` of a failed port scan. -/
inductive AllocErr where
  | validationError
  | portExhaustion
deriving DecidableEq, Repr

/-- `_is_udp_range_free`: all ports of `[start, start+size)` must probe
free.  The per-port UDP bind is the oracle `udpFree`. -/
def is_udp_range_free (udpFree : Nat → Bool) (start size : Nat) : Bool :=
  (List.range size).all (fun i => udpFree (start + i))

/-- Loop body of `_find_free_tcp_port`, made structurally recursive on a
fuel argument.  The source's `while` loop raises as soon as the
candidate passes 65535, so it performs at most 65536 iterations; calling
the body with fuel 65536 (as `find_free_tcp_port` does) therefore never
exhausts the fuel before the source's own bound fires. -/
def find_free_tcp_port_go (probe : Nat → Bool) (used : List Nat) :
    Nat → Nat → Except AllocErr Nat
  | 0, _ => .error .portExhaustion
  | fuel + 1, port =>
    if port ∈ used ∨ probe port = false then
      if port + 1 > 65535 then .error .portExhaustion
      else find_free_tcp_port_go probe used fuel (port + 1)
    else .ok port

/-- `_find_free_tcp_port`: scan upward from `port`, skipping ports in
`used` and ports whose TCP bind probe reports busy; raise `RuntimeError`
past 65535. -/
def find_free_tcp_port (probe : Nat → Bool) (used : List Nat) (port : Nat) :
    Except AllocErr Nat :=
  find_free_tcp_port_go probe used 65536 port

/-- The overlap test of `_find_free_webrtc_range`:
`port < u + size and port + size > u` for some already-used start. -/
def overlapsAny (port : Nat) (used_starts : List Nat) : Bool :=
  used_starts.any (fun u => decide (port < u + webrtcRangeSize) &&
    decide (port + webrtcRangeSize > u))

/-- Loop body of `_find_free_webrtc_range` on a fuel argument; the
source raises once `port + size` passes 65535, so with fuel 65536 (as
`find_free_webrtc_range` supplies) the fuel is never exhausted first. -/
def find_free_webrtc_range_go (udpFree : Nat → Bool) (used_starts : List Nat) :
    Nat → Nat → Except AllocErr Nat
  | 0, _ => .error .portExhaustion
  | fuel + 1, port =>
    if port + webrtcRangeSize > 65535 then .error .portExhaustion
    else if overlapsAny port used_starts = false ∧
        is_udp_range_free udpFree port webrtcRangeSize = true then .ok port
    else find_free_webrtc_range_go udpFree used_starts fuel (port + webrtcRangeSize)

/-- `_find_free_webrtc_range` with the default `size = _WEBRTC_RANGE_SIZE`
used by every call site: scan upward in steps of the range size for a
block overlapping no allocated range and fully probing free. -/
def find_free_webrtc_range (udpFree : Nat → Bool) (used_starts : List Nat)
    (port : Nat) : Except AllocErr Nat :=
  find_free_webrtc_range_go udpFree used_starts 65536 port

/-- The external world one `_allocate_ports` call observes: the
`docker ps` outcome of its purge step and the three bind-probe oracles
(the two TCP probes and the per-port UDP probe). -/
structure Env where
  ps : PsOutcome
  serverProbe : Nat → Bool
  debugProbe : Nat → Bool
  udpPortFree : Nat → Bool

/-- Steps 1-3 of `_allocate_ports` (after validation): purge dead
allocations, reset cursors when no allocations remain, reclaim a stale
entry for the requested name.  This is the state over which the free
ports are then searched. -/
def allocScanState (env : Env) (name : String) (st : PortState) : PortState :=
  let st1 := purge_dead_allocations (running_docker_names env.ps) st
  let st2 := maybe_reset_cursors st1
  if (lookupA name st2.allocations).isSome then
    release_ports_unlocked name st2 else st2

/-- `_allocate_ports`: validate, purge dead allocations, reset cursors
when empty, reclaim a stale entry for the same name, scan for the three
free resources, insert the record, advance the cursors, persist.  The
returned state is the document passed to `_write_state`; on error
nothing is persisted. -/
def allocate_ports (env : Env) (name : String) (st : PortState) :
    Except AllocErr ((Nat × Nat × Nat) × PortState) :=
  if pyReMatchName name = false then .error .validationError
  else
    let st3 := allocScanState env name st
    let used_server := st3.allocations.map (fun a => a.2.server_port)
    let used_debug := st3.allocations.map (fun a => a.2.debug_port)
    let used_webrtc := st3.allocations.map (fun a => a.2.webrtc_port_start)
    match find_free_tcp_port env.serverProbe used_server st3.next_server_port with
    | .error e => .error e
    | .ok server_port =>
      match find_free_tcp_port env.debugProbe used_debug st3.next_debug_port with
      | .error e => .error e
      | .ok debug_port =>
        match find_free_webrtc_range env.udpPortFree used_webrtc st3.next_webrtc_port with
        | .error e => .error e
        | .ok webrtc_port_start =>
          .ok ((server_port, debug_port, webrtc_port_start),
            { next_server_port := server_port + 1
              next_debug_port := debug_port + 1
              next_webrtc_port := webrtc_port_start + webrtcRangeSize
              allocations := st3.allocations ++
                [(name, ⟨server_port, debug_port, webrtc_port_start⟩)] })

/-- `_release_ports`: validate, drop the entry if present, reset cursors
when empty, persist.  The returned state is the document passed to
`_write_state`. -/
def release_ports (name : String) (st : PortState) : Except AllocErr PortState :=
  if pyReMatchName name = false then .error .validationError
  else .ok (maybe_reset_cursors (release_ports_unlocked name st))

/-- One public port-manager operation together with the external world
it observes: `_allocate_ports` with its probe and runtime oracles, or
`_release_ports`. -/
inductive Op where
  | alloc (env : Env) (name : String)
  | rel (name : String)

/-- Apply one operation to the persisted state.  An operation that
raises persists nothing, leaving the state file as it was. -/
def applyOp (st : PortState) : Op → PortState
  | .alloc env name =>
    match allocate_ports env name st with
    | .ok (_, st') => st'
    | .error _ => st
  | .rel name =>
    match release_ports name st with
    | .ok st' => st'
    | .error _ => st

/-- The persisted state after a sequence of port-manager calls. -/
def run (ops : List Op) (st : PortState) : PortState := ops.foldl applyOp st

/-- The disjointness relation of spec invariants I1 and I2 between two
allocation entries: distinct server ports, distinct debug ports, and
disjoint WebRTC intervals `[start, start + R)`. -/
def AllocRel (a b : String × Alloc) : Prop :=
  a.2.server_port ≠ b.2.server_port ∧ a.2.debug_port ≠ b.2.debug_port ∧
    (a.2.webrtc_port_start + webrtcRangeSize ≤ b.2.webrtc_port_start ∨
     b.2.webrtc_port_start + webrtcRangeSize ≤ a.2.webrtc_port_start)

/-- An environment in which the container runtime is unreachable (the
`docker ps` call raises) and every port probe reports free. -/
def allFreeEnv : Env :=
  { ps := .raises
    serverProbe := fun _ => true
    debugProbe := fun _ => true
    udpPortFree := fun _ => true }

/-!  The JSON level of `_read_state`. -/

/-- A JSON value, as produced by `json.load`. -/
inductive JsonVal where
  | jnull
  | jbool (b : Bool)
  | jnum (n : Int)
  | jstr (s : String)
  | jarr (elems : List JsonVal)
  | jobj (fields : List (String × JsonVal))

/-- What `_read_state` finds: no state file, a file whose content is not
parseable as JSON (`json.load` raises `JSONDecodeError`), or a file that
parses to some JSON value. -/
inductive ReadInput where
  | missing
  | unparsable
  | json (v : JsonVal)

/-- The Python exception escaping `_read_state` when the parsed value is
not a dict. -/
inductive PyExc where
  | attributeError
deriving DecidableEq, Repr

/-- `_DEFAULT_STATE` as the JSON document `_read_state` deep-copies. -/
def defaultStateJson : JsonVal :=
  .jobj [("next_server_port", .jnum 8081), ("next_debug_port", .jnum 9224),
    ("next_webrtc_port", .jnum 52000), ("allocations", .jobj [])]

/-- Lookup in a JSON object's field list (Python dict access). -/
def jsonLookup (k : String) : List (String × JsonVal) → Option JsonVal
  | [] => none
  | f :: rest => if f.1 = k then some f.2 else jsonLookup k rest

/-- Python `state.setdefault("allocations", {})` on a dict: append the
key with an empty object when absent. -/
def setdefaultAllocations (fields : List (String × JsonVal)) : List (String × JsonVal) :=
  match jsonLookup "allocations" fields with
  | some _ => fields
  | none => fields ++ [("allocations", .jobj [])]

/-- `_read_state`: default document when the file is missing or
`json.load` raises `JSONDecodeError`; otherwise `state.setdefault(...)`
is called on the parsed value — which is an `AttributeError` when that
value is not a dict (only `JSONDecodeError` is caught). -/
def read_state : ReadInput → Except PyExc JsonVal
  | .missing => .ok defaultStateJson
  | .unparsable => .ok defaultStateJson
  | .json v =>
    match v with
    | .jobj fields => .ok (.jobj (setdefaultAllocations fields))
    | _ => .error .attributeError

/-!  The launcher: `_launch_with_retry` and `launch`. -/

/-- Whether the character list `needle` is a prefix of `hay`. -/
def listStartsWith : List Char → List Char → Bool
  | [], _ => true
  | _ :: _, [] => false
  | p :: ps, c :: cs => p == c && listStartsWith ps cs

/-- Whether `needle` occurs contiguously inside `hay`. -/
def listContainsSub (needle : List Char) : List Char → Bool
  | [] => listStartsWith needle []
  | c :: rest => listStartsWith needle (c :: rest) || listContainsSub needle rest

/-- Python's `needle in hay` on strings. -/
def pyIn (needle hay : String) : Bool := listContainsSub needle.data hay.data

/-- `"port is already allocated" in stderr or "address already in use" in stderr`. -/
def port_conflict_stderr (stderr : String) : Bool :=
  pyIn "port is already allocated" stderr || pyIn "address already in use" stderr

/-- `"Conflict. The container name" in stderr`. -/
def name_conflict_stderr (stderr : String) : Bool :=
  pyIn "Conflict. The container name" stderr

/-- Outcome of one `subprocess.Popen(config.neko_docker_cmd) /
communicate(timeout=30)` attempt: the wait timed out, or `docker run`
returned with an exit code and stderr. -/
inductive RunOutcome where
  | timeoutExpired
  | done (returncode : Int) (stderr : String)

/-- The errors `_launch_with_retry` and `launch` raise
(`BrowserLaunchError`, `BrowserConnectionError`, or a propagated
port-manager error). -/
inductive LaunchErr where
  | dockerRunTimeout
  | dockerFailed (stderr : String)
  | maxRetriesExceeded
  | allocFailure (e : AllocErr)
  | buildFailed
  | stopDockerFailed
  | readinessTimeout
deriving DecidableEq, Repr

/-- The port fields of `BrowserConfig` that `launch` and
`_launch_with_retry` write back after each allocation. -/
structure LaunchCfg where
  docker_name : String
  server_port : Nat
  debug_port : Nat
  webrtc_port_start : Nat
deriving DecidableEq, Repr

/-- Externally visible actions of the launcher, in order. -/
inductive LEvent where
  | killContainer (name : String)
  | rmContainer (name : String)
  | releasedPorts (name : String)
  | allocatedPorts (name : String) (ports : Nat × Nat × Nat)
  | startedContainer (name : String)
  | sleep (seconds : ℚ)
  | cleanedProfile
  | startedScreenshotLoop (name : String)
  | registeredAtexit (name : String)
deriving DecidableEq, Repr

/-- The `for attempt in range(max_retries)` loop of `_launch_with_retry`,
structurally recursive on the remaining attempts (`fuel`); exhausting
the loop raises the final `BrowserLaunchError`.  Per iteration: a
`communicate` timeout raises at once; exit code 0 returns (the container
started); otherwise the backoff `2 ** attempt * uniform(1.5, 3.5)` is
computed (the draw is the oracle `jitter attempt`), stderr is
classified — port conflict: release, reallocate with fresh oracle
answers, write the new triple into the config, sleep, retry; container
name conflict: `docker rm -f`, sleep, retry; anything else raises
immediately without sleeping. -/
def launch_with_retry_aux (outcomes : Nat → RunOutcome) (jitter : Nat → ℚ)
    (envs : Nat → Env) :
    Nat → Nat → LaunchCfg → PortState → List LEvent →
      Except LaunchErr LaunchCfg × PortState × List LEvent
  | _, 0, _, st, evs => (.error .maxRetriesExceeded, st, evs)
  | attempt, fuel + 1, cfg, st, evs =>
    match outcomes attempt with
    | .timeoutExpired => (.error .dockerRunTimeout, st, evs)
    | .done rc stderr =>
      if rc = 0 then (.ok cfg, st, evs ++ [.startedContainer cfg.docker_name])
      else
        let backoff : ℚ := 2 ^ attempt * jitter attempt
        if port_conflict_stderr stderr then
          match release_ports cfg.docker_name st with
          | .error e => (.error (.allocFailure e), st, evs)
          | .ok st1 =>
            match allocate_ports (envs attempt) cfg.docker_name st1 with
            | .error e => (.error (.allocFailure e), st1, evs ++ [.releasedPorts cfg.docker_name])
            | .ok ((s, d, w), st2) =>
              launch_with_retry_aux outcomes jitter envs (attempt + 1) fuel
                { cfg with server_port := s, debug_port := d, webrtc_port_start := w } st2
                (evs ++ [.releasedPorts cfg.docker_name,
                  .allocatedPorts cfg.docker_name (s, d, w), .sleep backoff])
        else if name_conflict_stderr stderr then
          launch_with_retry_aux outcomes jitter envs (attempt + 1) fuel cfg st
            (evs ++ [.rmContainer cfg.docker_name, .sleep backoff])
        else (.error (.dockerFailed stderr), st, evs)

/-- `_launch_with_retry` with its default `max_retries = 3` (every call
site uses the default). -/
def launch_with_retry (outcomes : Nat → RunOutcome) (jitter : Nat → ℚ)
    (envs : Nat → Env) (cfg : LaunchCfg) (st : PortState) :
    Except LaunchErr LaunchCfg × PortState × List LEvent :=
  launch_with_retry_aux outcomes jitter envs 0 3 cfg st []

/-- `stop_docker`: list all containers (`docker ps -a`, `check=True`, so
a failed query raises), and when the name is present, kill it, remove
it, and release its ports. -/
def stop_docker (psAll : Except Unit (List String)) (name : String) (st : PortState) :
    Except LaunchErr (Bool × PortState × List LEvent) :=
  match psAll with
  | .error _ => .error .stopDockerFailed
  | .ok names =>
    if names.contains name then
      match release_ports name st with
      | .error e => .error (.allocFailure e)
      | .ok st1 => .ok (true, st1, [.killContainer name, .rmContainer name, .releasedPorts name])
    else .ok (false, st, [])

/-- Everything the external world decides during one `launch` call. -/
structure LaunchEnv where
  imageExists : Bool
  buildOk : Bool
  psAll : Except Unit (List String)
  allocEnv : Env
  outcomes : Nat → RunOutcome
  jitter : Nat → ℚ
  retryEnvs : Nat → Env
  readinessOk : Bool
  wsUrl : String
  takeScreenshot : Bool

/-- `NekoBrowserLauncher.launch`: ensure the image (build when absent),
stop any same-named container, allocate ports into the config, clean the
profile, start the container with retry, wait for the websocket URL,
optionally start the screenshot loop, register the atexit hook.  The
`try` block spans the retry and the readiness wait; its `except` handler
calls `_release_ports(config.docker_name)` and re-raises — it does not
kill the container. -/
def launch (env : LaunchEnv) (name : String) (st : PortState) :
    Except LaunchErr String × PortState × List LEvent :=
  if env.imageExists = false ∧ env.buildOk = false then (.error .buildFailed, st, [])
  else
    match stop_docker env.psAll name st with
    | .error e => (.error e, st, [])
    | .ok (_, st1, evs1) =>
      match allocate_ports env.allocEnv name st1 with
      | .error e => (.error (.allocFailure e), st1, evs1)
      | .ok ((s, d, w), st2) =>
        let evs2 := evs1 ++ [.allocatedPorts name (s, d, w), .cleanedProfile]
        match launch_with_retry env.outcomes env.jitter env.retryEnvs
            (LaunchCfg.mk name s d w) st2 with
        | (.error e, st3, evsR) =>
          match release_ports name st3 with
          | .ok st4 => (.error e, st4, evs2 ++ evsR ++ [.releasedPorts name])
          | .error e2 => (.error (.allocFailure e2), st3, evs2 ++ evsR)
        | (.ok _, st3, evsR) =>
          if env.readinessOk then
            (.ok env.wsUrl, st3,
              evs2 ++ evsR ++
                (if env.takeScreenshot then [.startedScreenshotLoop name] else []) ++
                [.registeredAtexit name])
          else
            match release_ports name st3 with
            | .ok st4 => (.error .readinessTimeout, st4, evs2 ++ evsR ++ [.releasedPorts name])
            | .error e2 => (.error (.allocFailure e2), st3, evs2 ++ evsR)

/-- Whether the event trace ends with a container of the given name
started and never killed or removed afterwards. -/
def containerLeftRunning (name : String) (evs : List LEvent) : Bool :=
  evs.foldl
    (fun acc ev =>
      match ev with
      | .startedContainer n => if n = name then true else acc
      | .killContainer n => if n = name then false else acc
      | .rmContainer n => if n = name then false else acc
      | _ => acc)
    false

/-- A `launch` environment in which everything succeeds until the
readiness probe, which times out. -/
def readinessFailEnv : LaunchEnv :=
  { imageExists := true
    buildOk := true
    psAll := .ok []
    allocEnv := allFreeEnv
    outcomes := fun _ => .done 0 ""
    jitter := fun _ => 2
    retryEnvs := fun _ => allFreeEnv
    readinessOk := false
    wsUrl := "ws://unused"
    takeScreenshot := false }

/-!  `clean_browser_profile` of `browser_launcher.py`. -/

/-- The filesystem facts `clean_browser_profile` observes: whether
`Default/Preferences` exists and what it parses to (`none` models a
`JSONDecodeError`), the `glob` results for the two `Singleton*`
patterns, and the existence of `lockfile`, `Extensions/`, `GPUCache/`. -/
structure ProfileEnv where
  prefsExists : Bool
  prefsJson : Option JsonVal
  singletonMatches : List String
  tmpSingletonMatches : List String
  lockfileExists : Bool
  extensionsExists : Bool
  gpuCacheExists : Bool

/-- Filesystem actions of the profile cleaner, in order. -/
inductive FsEvent where
  | readFile (path : String)
  | writeFile (path : String)
  | removeFile (path : String)
  | removeTree (path : String)
deriving DecidableEq, Repr

/-- Python truthiness of a JSON value (for
`if not prefs['profile'].get('exited_cleanly', True)`). -/
def jsonFalsy : JsonVal → Bool
  | .jnull => true
  | .jbool b => !b
  | .jnum n => n == 0
  | .jstr s => s == ""
  | .jarr l => l.isEmpty
  | .jobj l => l.isEmpty

/-- `_fix_chrome_exit_state`: skip when the Preferences file is absent;
otherwise read it; on parse failure log and stop; on a parsed object,
rewrite it only when `profile.exit_type` is not `"Normal"` or
`profile.exited_cleanly` is present and falsy (a missing `profile` dict
is created, so its missing `exit_type` also counts as a change); any
other shape raises inside the broad `except` and is only logged. -/
def fix_chrome_exit_state (profile_path : String) (env : ProfileEnv) : List FsEvent :=
  let prefs_file := profile_path ++ "/Default/Preferences"
  if env.prefsExists = false then []
  else
    .readFile prefs_file ::
      (match env.prefsJson with
       | none => []
       | some (.jobj fields) =>
         match jsonLookup "profile" fields with
         | some (.jobj pf) =>
           let m1 : Bool :=
             match jsonLookup "exit_type" pf with
             | some (.jstr s) => s != "Normal"
             | _ => true
           let m2 : Bool :=
             match jsonLookup "exited_cleanly" pf with
             | some v => jsonFalsy v
             | none => false
           if m1 || m2 then [.writeFile prefs_file] else []
         | none => [.writeFile prefs_file]
         | some _ => []
       | some _ => [])

/-- `clean_browser_profile`: return immediately when
`delete_user_data_dir_singleton_lock` is off; otherwise fix the exit
state, then best-effort remove the `Singleton*` matches under the
profile, the `/tmp/.com.google.Chrome*/Singleton*` matches, `lockfile`,
and the `Extensions/` and `GPUCache/` subtrees. -/
def clean_browser_profile (delete_user_data_dir_singleton_lock : Bool)
    (user_data_dir : String) (env : ProfileEnv) : List FsEvent :=
  if delete_user_data_dir_singleton_lock = false then []
  else
    fix_chrome_exit_state user_data_dir env ++
    env.singletonMatches.map FsEvent.removeFile ++
    env.tmpSingletonMatches.map FsEvent.removeFile ++
    (if env.lockfileExists then [.removeFile (user_data_dir ++ "/lockfile")] else []) ++
    (if env.extensionsExists then [.removeTree (user_data_dir ++ "/Extensions")] else []) ++
    (if env.gpuCacheExists then [.removeTree (user_data_dir ++ "/GPUCache")] else [])

/-- The stderr Docker emits on a container-name conflict (used to
exercise the retry loop's cap). -/
def nameConflictMsg : String :=
  "docker: Error response from daemon: Conflict. The container name is already in use."

/-!  Helper lemmas about the state helpers. -/

theorem maybe_reset_allocations (st : PortState) :
    (maybe_reset_cursors st).allocations = st.allocations := by
  unfold maybe_reset_cursors
  split <;> rfl

theorem maybe_reset_idem (st : PortState) :
    maybe_reset_cursors (maybe_reset_cursors st) = maybe_reset_cursors st := by
  by_cases h : st.allocations = [] <;>
    simp [maybe_reset_cursors, h]

theorem maybe_reset_of_default_cursors (st : PortState)
    (h : st.allocations = [] → st.next_server_port = 8081 ∧ st.next_debug_port = 9224 ∧
      st.next_webrtc_port = 52000) :
    maybe_reset_cursors st = st := by
  unfold maybe_reset_cursors
  split
  · rename_i he
    obtain ⟨h1, h2, h3⟩ := h he
    cases st
    simp_all [defaultPortState]
  · rfl

theorem lookupA_eraseKey (name : String) (l : List (String × Alloc)) :
    lookupA name (eraseKey name l) = none := by
  induction l with
  | nil => rfl
  | cons a rest ih =>
    simp only [eraseKey, List.filter_cons] at ih ⊢
    by_cases h : a.1 = name
    · simp [h, ih]
    · simp [h, lookupA, ih]

theorem eraseKey_of_lookup_none (name : String) (l : List (String × Alloc))
    (h : lookupA name l = none) : eraseKey name l = l := by
  induction l with
  | nil => rfl
  | cons a rest ih =>
    rw [lookupA] at h
    split at h
    · exact absurd h (by simp)
    · rename_i hne
      have hb : (a.1 != name) = true := by simp [hne]
      simp only [eraseKey, List.filter_cons, hb, if_true]
      exact congrArg (a :: ·) (ih h)

theorem release_unlocked_allocations (name : String) (st : PortState) :
    (release_ports_unlocked name st).allocations = eraseKey name st.allocations := by
  unfold release_ports_unlocked
  split
  · rfl
  · rename_i h
    rw [eraseKey_of_lookup_none name st.allocations (by simpa using h)]

theorem release_unlocked_cursors (name : String) (st : PortState) :
    (release_ports_unlocked name st).next_server_port = st.next_server_port ∧
    (release_ports_unlocked name st).next_debug_port = st.next_debug_port ∧
    (release_ports_unlocked name st).next_webrtc_port = st.next_webrtc_port := by
  unfold release_ports_unlocked
  split <;> exact ⟨rfl, rfl, rfl⟩

theorem release_unlocked_sublist (name : String) (st : PortState) :
    (release_ports_unlocked name st).allocations.Sublist st.allocations := by
  rw [release_unlocked_allocations]
  exact List.filter_sublist _

theorem purge_sublist (r : Option (List String)) (st : PortState) :
    (purge_dead_allocations r st).allocations.Sublist st.allocations := by
  cases r with
  | none => exact List.Sublist.refl _
  | some names => exact List.filter_sublist _

theorem allocScanState_sublist (env : Env) (name : String) (st : PortState) :
    (allocScanState env name st).allocations.Sublist st.allocations := by
  have hsub : (maybe_reset_cursors (purge_dead_allocations
      (running_docker_names env.ps) st)).allocations.Sublist st.allocations := by
    rw [maybe_reset_allocations]
    exact purge_sublist _ _
  simp only [allocScanState]
  split
  · exact (release_unlocked_sublist _ _).trans hsub
  · exact hsub

theorem find_free_tcp_port_go_ok (probe : Nat → Bool) (used : List Nat) :
    ∀ fuel port p, find_free_tcp_port_go probe used fuel port = .ok p → p ∉ used := by
  intro fuel
  induction fuel with
  | zero =>
    intro port p h
    exact absurd h (by simp [find_free_tcp_port_go])
  | succ n ih =>
    intro port p h
    rw [find_free_tcp_port_go] at h
    split at h
    · split at h
      · exact absurd h (by simp)
      · exact ih _ _ h
    · rename_i hcond
      injection h with h
      subst h
      push_neg at hcond
      exact hcond.1

theorem find_free_tcp_port_ok (probe : Nat → Bool) (used : List Nat) (port p : Nat)
    (h : find_free_tcp_port probe used port = .ok p) : p ∉ used :=
  find_free_tcp_port_go_ok probe used 65536 port p h

theorem find_free_webrtc_range_go_ok (udpFree : Nat → Bool) (used : List Nat) :
    ∀ fuel port w, find_free_webrtc_range_go udpFree used fuel port = .ok w →
      ∀ u ∈ used, w + webrtcRangeSize ≤ u ∨ u + webrtcRangeSize ≤ w := by
  intro fuel
  induction fuel with
  | zero =>
    intro port w h
    exact absurd h (by simp [find_free_webrtc_range_go])
  | succ n ih =>
    intro port w h
    rw [find_free_webrtc_range_go] at h
    split at h
    · exact absurd h (by simp)
    · split at h
      · rename_i hcond
        injection h with h
        subst h
        intro u hu
        have hov := hcond.1
        rw [overlapsAny, List.any_eq_false] at hov
        have hnu := hov u hu
        rcases Nat.lt_or_ge port (u + webrtcRangeSize) with hlt | hge
        · rcases Nat.lt_or_ge u (port + webrtcRangeSize) with hlt2 | hge2
          · simp [hlt, hlt2] at hnu
          · omega
        · omega
      · exact ih _ _ h

theorem find_free_webrtc_range_ok (udpFree : Nat → Bool) (used : List Nat) (port w : Nat)
    (h : find_free_webrtc_range udpFree used port = .ok w) :
    ∀ u ∈ used, w + webrtcRangeSize ≤ u ∨ u + webrtcRangeSize ≤ w :=
  find_free_webrtc_range_go_ok udpFree used 65536 port w h

/-- Characterization of a successful `_allocate_ports` call: the name
validated, the three searches succeeded over the purged/reclaimed
allocation list, and the persisted state appends the new record and
advances the cursors. -/
theorem allocate_ports_ok_shape (env : Env) (name : String) (st : PortState)
    (r : Nat × Nat × Nat) (st' : PortState)
    (h : allocate_ports env name st = .ok (r, st')) :
    pyReMatchName name = true ∧
    ∃ server debug webrtc,
      find_free_tcp_port env.serverProbe
        ((allocScanState env name st).allocations.map (fun a => a.2.server_port))
        (allocScanState env name st).next_server_port = .ok server ∧
      find_free_tcp_port env.debugProbe
        ((allocScanState env name st).allocations.map (fun a => a.2.debug_port))
        (allocScanState env name st).next_debug_port = .ok debug ∧
      find_free_webrtc_range env.udpPortFree
        ((allocScanState env name st).allocations.map (fun a => a.2.webrtc_port_start))
        (allocScanState env name st).next_webrtc_port = .ok webrtc ∧
      r = (server, debug, webrtc) ∧
      st' = { next_server_port := server + 1
              next_debug_port := debug + 1
              next_webrtc_port := webrtc + webrtcRangeSize
              allocations := (allocScanState env name st).allocations ++
                [(name, ⟨server, debug, webrtc⟩)] } := by
  simp only [allocate_ports] at h
  split at h
  · exact absurd h (by simp)
  · rename_i hval
    refine ⟨by simpa using hval, ?_⟩
    split at h
    · exact absurd h (by simp)
    · rename_i server hs
      split at h
      · exact absurd h (by simp)
      · rename_i debug hd
        split at h
        · exact absurd h (by simp)
        · rename_i webrtc hw
          injection h with h
          exact ⟨server, debug, webrtc, hs, hd, hw,
            (congrArg Prod.fst h).symm, (congrArg Prod.snd h).symm⟩

theorem release_ports_ok_iff (name : String) (st : PortState) :
    release_ports name st =
      (if pyReMatchName name = false then .error .validationError
       else .ok (maybe_reset_cursors (release_ports_unlocked name st))) := rfl

theorem applyOp_preserves_pairwise (st : PortState) (op : Op)
    (h : st.allocations.Pairwise AllocRel) :
    (applyOp st op).allocations.Pairwise AllocRel := by
  cases op with
  | rel name =>
    rw [applyOp]
    cases hres : release_ports name st with
    | error e => exact h
    | ok st' =>
      rw [release_ports_ok_iff] at hres
      split at hres
      · exact absurd hres (by simp)
      · injection hres with hres
        subst hres
        rw [maybe_reset_allocations]
        exact h.sublist (release_unlocked_sublist name st)
  | alloc env name =>
    rw [applyOp]
    cases hres : allocate_ports env name st with
    | error e => exact h
    | ok p =>
      obtain ⟨r, st'⟩ := p
      obtain ⟨-, server, debug, webrtc, hs, hd, hw, -, hst⟩ :=
        allocate_ports_ok_shape env name st r st' hres
      subst hst
      have hbase : (allocScanState env name st).allocations.Pairwise AllocRel :=
        h.sublist (allocScanState_sublist env name st)
      rw [List.pairwise_append]
      refine ⟨hbase, by simp, ?_⟩
      intro a ha b hb
      simp only [List.mem_singleton] at hb
      subst hb
      refine ⟨?_, ?_, ?_⟩
      · intro hcontra
        apply find_free_tcp_port_ok _ _ _ _ hs
        have heq : a.2.server_port = server := hcontra
        exact heq ▸ List.mem_map_of_mem (fun a => a.2.server_port) ha
      · intro hcontra
        apply find_free_tcp_port_ok _ _ _ _ hd
        have heq : a.2.debug_port = debug := hcontra
        exact heq ▸ List.mem_map_of_mem (fun a => a.2.debug_port) ha
      · have := find_free_webrtc_range_ok _ _ _ _ hw a.2.webrtc_port_start
          (List.mem_map_of_mem (fun a => a.2.webrtc_port_start) ha)
        exact this.symm

theorem run_preserves_pairwise (ops : List Op) :
    ∀ st : PortState, st.allocations.Pairwise AllocRel →
      (run ops st).allocations.Pairwise AllocRel := by
  induction ops with
  | nil => exact fun st h => h
  | cons op rest ih =>
    intro st h
    exact ih (applyOp st op) (applyOp_preserves_pairwise st op h)

/-!  Claim theorems. -/

/-- C1.  For every sequence of `_allocate_ports` / `_release_ports`
calls starting from the default state — with arbitrary answers from the
port probes and the container runtime, captured by the `Env` carried by
each `alloc` operation — the state persisted by `_write_state` has
pairwise-distinct `server_port` values, pairwise-distinct `debug_port`
values, and pairwise-disjoint WebRTC intervals
`[webrtc_port_start, webrtc_port_start + 101)`.  Every state ever passed
to `_write_state` is `run ops defaultPortState` for the prefix `ops` of
calls executed so far, as each operation persists exactly once, at its
end, on success, so quantifying over all `ops` covers every persisted
state. -/
theorem persisted_states_ports_pairwise_disjoint (ops : List Op) :
    ((run ops defaultPortState).allocations.map
        (fun a => a.2.server_port)).Pairwise (· ≠ ·) ∧
    ((run ops defaultPortState).allocations.map
        (fun a => a.2.debug_port)).Pairwise (· ≠ ·) ∧
    ((run ops defaultPortState).allocations.map
        (fun a => a.2.webrtc_port_start)).Pairwise
      (fun x y => x + webrtcRangeSize ≤ y ∨ y + webrtcRangeSize ≤ x) := by
  have h := run_preserves_pairwise ops defaultPortState (by simp [defaultPortState])
  refine ⟨?_, ?_, ?_⟩ <;> rw [List.pairwise_map]
  · exact h.imp (fun hab => hab.1)
  · exact h.imp (fun hab => hab.2.1)
  · exact h.imp (fun hab => hab.2.2)

/-- C2.  From the default state, under the precondition that every
probed port reports free (for any answer of the container runtime),
`_allocate_ports("alpha")` returns `(8081, 9224, 52000)` and persists
the state with exactly that allocation and cursors advanced to
`(8082, 9225, 52101)` — server+1, debug+1, webrtc_start+101. -/
theorem allocate_alpha_from_default (env : Env)
    (hs : ∀ p, env.serverProbe p = true)
    (hd : ∀ p, env.debugProbe p = true)
    (hu : ∀ p, env.udpPortFree p = true) :
    allocate_ports env "alpha" defaultPortState =
      .ok ((8081, 9224, 52000),
        { next_server_port := 8082
          next_debug_port := 9225
          next_webrtc_port := 52101
          allocations := [("alpha", ⟨8081, 9224, 52000⟩)] }) := by
  have hscan : allocScanState env "alpha" defaultPortState = defaultPortState := by
    have hps : purge_dead_allocations (running_docker_names env.ps) defaultPortState =
        defaultPortState := by
      cases env.ps with
      | raises => rfl
      | completes rc out => rfl
    simp only [allocScanState, hps]
    rfl
  have hserver : find_free_tcp_port env.serverProbe [] 8081 = .ok 8081 := by
    rw [find_free_tcp_port, find_free_tcp_port_go]
    simp [hs 8081]
  have hdebug : find_free_tcp_port env.debugProbe [] 9224 = .ok 9224 := by
    rw [find_free_tcp_port, find_free_tcp_port_go]
    simp [hd 9224]
  have hudp : is_udp_range_free env.udpPortFree 52000 webrtcRangeSize = true := by
    simp only [is_udp_range_free, List.all_eq_true]
    intro i _
    exact hu _
  have hwebrtc : find_free_webrtc_range env.udpPortFree [] 52000 = .ok 52000 := by
    rw [find_free_webrtc_range, find_free_webrtc_range_go]
    rw [if_neg (by decide)]
    rw [if_pos ⟨rfl, hudp⟩]
  rw [allocate_ports]
  rw [if_neg (by decide)]
  simp only [hscan]
  simp only [defaultPortState, List.map_nil]
  rw [hserver, hdebug, hwebrtc]
  rfl

/-- Witness for C2 at the concrete all-free environment. -/
theorem allocate_alpha_from_default_w :
    allocate_ports allFreeEnv "alpha" defaultPortState =
      .ok ((8081, 9224, 52000),
        { next_server_port := 8082
          next_debug_port := 9225
          next_webrtc_port := 52101
          allocations := [("alpha", ⟨8081, 9224, 52000⟩)] }) :=
  allocate_alpha_from_default allFreeEnv (fun _ => rfl) (fun _ => rfl) (fun _ => rfl)

/-- C4 counterexample.  The name `"a\n"` does not match the regex
`^[A-Za-z0-9][A-Za-z0-9_.\-]*$` (the newline is outside both character
classes), yet neither `_allocate_ports` nor `_release_ports` raises a
validation error on it: Python's `re.match` accepts the single trailing
newline because `$` also matches just before a final newline, so the
call proceeds to the locks, the state read and the runtime query, and
persists an allocation under the invalid name. -/
theorem validation_trailing_newline_cex :
    specRegexMatch "a\n" = false ∧
    allocate_ports allFreeEnv "a\n" defaultPortState =
      .ok ((8081, 9224, 52000),
        { next_server_port := 8082
          next_debug_port := 9225
          next_webrtc_port := 52101
          allocations := [("a\n", ⟨8081, 9224, 52000⟩)] }) ∧
    release_ports "a\n" defaultPortState = .ok defaultPortState :=
  ⟨rfl, rfl, rfl⟩

/-- C4, amended.  For every name rejected by the source's actual check —
Python's `re.match` against `^[a-zA-Z0-9][a-zA-Z0-9_.\-]*$`, which also
accepts a body match followed by one trailing newline — both
`_allocate_ports` and `_release_ports` raise `ValueError` first: the
result is a validation error for every environment and every state, so
no oracle is consulted and no state is persisted (in the source the
`raise` precedes the lock acquisitions, `_read_state`, `_write_state`
and every `docker` invocation). -/
theorem validation_rejects_before_effects (name : String) (env : Env) (st : PortState)
    (h : pyReMatchName name = false) :
    allocate_ports env name st = .error .validationError ∧
    release_ports name st = .error .validationError := by
  constructor
  · rw [allocate_ports, if_pos h]
  · rw [release_ports, if_pos h]

/-- Witness for the amended C4 at the concrete name `"bad;name"`. -/
theorem validation_rejects_before_effects_w :
    allocate_ports allFreeEnv "bad;name" defaultPortState = .error .validationError ∧
    release_ports "bad;name" defaultPortState = .error .validationError :=
  validation_rejects_before_effects "bad;name" allFreeEnv defaultPortState rfl

/-- C5.  For every validly named container and every state, a successful
`_release_ports` persists the state with the name's entry removed,
resets the three cursors to the defaults exactly when the remaining
allocation map is empty (and leaves them unchanged otherwise), is
idempotent, and is a no-op for a name that has no entry provided the
state satisfies the persisted-state invariant that empty allocations
come with default cursors — which every state persisted through the API
does, as both operations run `_maybe_reset_cursors` before writing a
state they leave empty. -/
theorem release_ports_behavior (name : String) (st st' : PortState)
    (h : release_ports name st = .ok st') :
    st'.allocations = eraseKey name st.allocations ∧
    (st'.allocations = [] →
      st'.next_server_port = 8081 ∧ st'.next_debug_port = 9224 ∧
        st'.next_webrtc_port = 52000) ∧
    (st'.allocations ≠ [] →
      st'.next_server_port = st.next_server_port ∧
        st'.next_debug_port = st.next_debug_port ∧
        st'.next_webrtc_port = st.next_webrtc_port) ∧
    release_ports name st' = .ok st' ∧
    (lookupA name st.allocations = none →
      (st.allocations = [] →
        st.next_server_port = 8081 ∧ st.next_debug_port = 9224 ∧
          st.next_webrtc_port = 52000) →
      st' = st) := by
  rw [release_ports] at h
  split at h
  · exact absurd h (by simp)
  · rename_i hval
    injection h with h
    subst h
    have hval' : pyReMatchName name = true := by simpa using hval
    refine ⟨?_, ?_, ?_, ?_, ?_⟩
    · rw [maybe_reset_allocations, release_unlocked_allocations]
    · intro hemp
      rw [maybe_reset_allocations] at hemp
      rw [maybe_reset_cursors, if_pos hemp]
      exact ⟨rfl, rfl, rfl⟩
    · intro hne
      rw [maybe_reset_allocations] at hne
      rw [maybe_reset_cursors, if_neg hne]
      exact release_unlocked_cursors name st
    · rw [release_ports, if_neg (by simp [hval'])]
      have hlook : lookupA name
          (maybe_reset_cursors (release_ports_unlocked name st)).allocations = none := by
        rw [maybe_reset_allocations, release_unlocked_allocations]
        exact lookupA_eraseKey name st.allocations
      rw [release_ports_unlocked, if_neg (by simp [hlook])]
      rw [maybe_reset_idem]
    · intro hnone hinv
      rw [release_ports_unlocked, if_neg (by simp [hnone])]
      exact maybe_reset_of_default_cursors st hinv

/-- Witness for C5: releasing `"beta"` from a state holding only `"beta"`
empties the map and resets the cursors to the defaults. -/
theorem release_ports_behavior_w :
    defaultPortState.allocations =
      eraseKey "beta" (PortState.mk 8083 9226 52202 [("beta", ⟨8082, 9225, 52101⟩)]).allocations ∧
    (defaultPortState.allocations = [] →
      defaultPortState.next_server_port = 8081 ∧ defaultPortState.next_debug_port = 9224 ∧
        defaultPortState.next_webrtc_port = 52000) ∧
    (defaultPortState.allocations ≠ [] →
      defaultPortState.next_server_port = 8083 ∧ defaultPortState.next_debug_port = 9226 ∧
        defaultPortState.next_webrtc_port = 52202) ∧
    release_ports "beta" defaultPortState = .ok defaultPortState ∧
    (lookupA "beta" (PortState.mk 8083 9226 52202 [("beta", ⟨8082, 9225, 52101⟩)]).allocations = none →
      ((PortState.mk 8083 9226 52202 [("beta", ⟨8082, 9225, 52101⟩)]).allocations = [] →
        8083 = 8081 ∧ 9226 = 9224 ∧ 52202 = 52000) →
      defaultPortState = PortState.mk 8083 9226 52202 [("beta", ⟨8082, 9225, 52101⟩)]) :=
  release_ports_behavior "beta" (PortState.mk 8083 9226 52202 [("beta", ⟨8082, 9225, 52101⟩)])
    defaultPortState rfl

/-- C6.  Every state persisted by a successful `_allocate_ports` or
`_release_ports` call satisfies invariant I4: if its allocation map is
empty, the three cursors are back at 8081 / 9224 / 52000.  An allocate
always persists a nonempty map, and a release runs
`_maybe_reset_cursors` just before `_write_state`, so once the last
allocation is released (or reaped and then released) the cursors are at
their defaults. -/
theorem persisted_empty_implies_default_cursors :
    (∀ (env : Env) (name : String) (st : PortState) r st',
      allocate_ports env name st = .ok (r, st') → st'.allocations = [] →
        st'.next_server_port = 8081 ∧ st'.next_debug_port = 9224 ∧
          st'.next_webrtc_port = 52000) ∧
    (∀ (name : String) (st st' : PortState),
      release_ports name st = .ok st' → st'.allocations = [] →
        st'.next_server_port = 8081 ∧ st'.next_debug_port = 9224 ∧
          st'.next_webrtc_port = 52000) := by
  constructor
  · intro env name st r st' h hemp
    obtain ⟨-, server, debug, webrtc, -, -, -, -, hst⟩ :=
      allocate_ports_ok_shape env name st r st' h
    rw [hst] at hemp
    exact absurd hemp (by simp)
  · intro name st st' h hemp
    rw [release_ports] at h
    split at h
    · exact absurd h (by simp)
    · injection h with h
      subst h
      rw [maybe_reset_allocations] at hemp
      rw [maybe_reset_cursors, if_pos hemp]
      exact ⟨rfl, rfl, rfl⟩

/-- Witness for C6: releasing the only allocation resets the cursors. -/
theorem persisted_empty_implies_default_cursors_w :
    defaultPortState.next_server_port = 8081 ∧
    defaultPortState.next_debug_port = 9224 ∧
    defaultPortState.next_webrtc_port = 52000 :=
  persisted_empty_implies_default_cursors.2 "beta"
    (PortState.mk 8083 9226 52202 [("beta", ⟨8082, 9225, 52101⟩)]) defaultPortState rfl rfl

/-- C3 (code bug).  `_running_docker_names` never inspects the exit
code of `docker ps` (the `subprocess.run` call has no `check=True`), so
when the Docker daemon is unreachable while the CLI exists — `docker ps`
completes with exit code 1 and empty stdout — the function returns the
empty set instead of the documented `None`, and
`_purge_dead_allocations` then deletes every allocation.  Only a raised
exception (timeout, missing binary) yields `None` and skips the purge.
The last conjunct shows the reachable-runtime path does remove exactly
the absent names. -/
theorem running_names_daemon_down_bug :
    running_docker_names (.completes 1 "") = some [] ∧
    running_docker_names .raises = none ∧
    purge_dead_allocations (running_docker_names (.completes 1 ""))
        (PortState.mk 8082 9225 52101 [("alpha", ⟨8081, 9224, 52000⟩)]) =
      PortState.mk 8082 9225 52101 [] ∧
    purge_dead_allocations (running_docker_names .raises)
        (PortState.mk 8082 9225 52101 [("alpha", ⟨8081, 9224, 52000⟩)]) =
      PortState.mk 8082 9225 52101 [("alpha", ⟨8081, 9224, 52000⟩)] ∧
    purge_dead_allocations (some ["alpha", "beta"])
        (PortState.mk 8083 9226 52202
          [("alpha", ⟨8081, 9224, 52000⟩), ("gamma", ⟨8082, 9225, 52101⟩)]) =
      PortState.mk 8083 9226 52202 [("alpha", ⟨8081, 9224, 52000⟩)] :=
  ⟨rfl, rfl, rfl, rfl, rfl⟩

/-- C7 (code bug).  `_read_state` returns the default document when the
file is missing or `json.load` raises `JSONDecodeError`, but it only
catches `JSONDecodeError`: a file holding valid JSON that is not an
object (here `[]`) reaches `state.setdefault(...)` and raises
`AttributeError`, which propagates to the caller.  An object lacking the
cursor keys (here `{}`) is also returned as-is with only `allocations`
defaulted in, not replaced by a fresh default state. -/
theorem read_state_nonobject_raises :
    read_state (.json (.jarr [])) = .error .attributeError ∧
    read_state .missing = .ok defaultStateJson ∧
    read_state .unparsable = .ok defaultStateJson ∧
    read_state (.json (.jobj [])) = .ok (.jobj [("allocations", .jobj [])]) :=
  ⟨rfl, rfl, rfl, rfl⟩

/-- C10.  When `config.delete_user_data_dir_singleton_lock` is false,
`clean_browser_profile` returns at its first statement: no file is read,
rewritten or deleted, for every profile directory and every filesystem
content.  The second conjunct checks the embedding is not vacuous: with
the flag on, the cleaner does read and rewrite `Default/Preferences` and
delete the lock artifacts and cache subtrees that exist. -/
theorem clean_profile_disabled_no_fs_effects :
    (∀ (dir : String) (env : ProfileEnv), clean_browser_profile false dir env = []) ∧
    clean_browser_profile true "/prof"
      { prefsExists := true
        prefsJson := some (.jobj [])
        singletonMatches := ["/prof/SingletonLock"]
        tmpSingletonMatches := []
        lockfileExists := true
        extensionsExists := true
        gpuCacheExists := true } =
      [.readFile "/prof/Default/Preferences", .writeFile "/prof/Default/Preferences",
       .removeFile "/prof/SingletonLock", .removeFile "/prof/lockfile",
       .removeTree "/prof/Extensions", .removeTree "/prof/GPUCache"] :=
  ⟨fun _ _ => rfl, rfl⟩

/-!  Step lemmas for the retry loop. -/

theorem retry_step_other (O : Nat → RunOutcome) (J : Nat → ℚ) (E : Nat → Env)
    (attempt fuel : Nat) (cfg : LaunchCfg) (st : PortState) (evs : List LEvent)
    (rc : Int) (stderr : String) (hO : O attempt = .done rc stderr) (hrc : rc ≠ 0)
    (hp : port_conflict_stderr stderr = false) (hn : name_conflict_stderr stderr = false) :
    launch_with_retry_aux O J E attempt (fuel + 1) cfg st evs =
      (.error (.dockerFailed stderr), st, evs) := by
  simp only [launch_with_retry_aux, hO]
  rw [if_neg hrc, if_neg (by simp [hp]), if_neg (by simp [hn])]

theorem retry_step_port (O : Nat → RunOutcome) (J : Nat → ℚ) (E : Nat → Env)
    (attempt fuel : Nat) (cfg : LaunchCfg) (st : PortState) (evs : List LEvent)
    (rc : Int) (stderr : String) (st1 : PortState) (s d w : Nat) (st2 : PortState)
    (hO : O attempt = .done rc stderr) (hrc : rc ≠ 0)
    (hp : port_conflict_stderr stderr = true)
    (hrel : release_ports cfg.docker_name st = .ok st1)
    (halloc : allocate_ports (E attempt) cfg.docker_name st1 = .ok ((s, d, w), st2)) :
    launch_with_retry_aux O J E attempt (fuel + 1) cfg st evs =
      launch_with_retry_aux O J E (attempt + 1) fuel
        { cfg with server_port := s, debug_port := d, webrtc_port_start := w } st2
        (evs ++ [.releasedPorts cfg.docker_name,
          .allocatedPorts cfg.docker_name (s, d, w),
          .sleep (2 ^ attempt * J attempt)]) := by
  simp only [launch_with_retry_aux, hO]
  rw [if_neg hrc, if_pos (by simp [hp])]
  simp only [hrel, halloc]

theorem retry_step_name (O : Nat → RunOutcome) (J : Nat → ℚ) (E : Nat → Env)
    (attempt fuel : Nat) (cfg : LaunchCfg) (st : PortState) (evs : List LEvent)
    (rc : Int) (stderr : String)
    (hO : O attempt = .done rc stderr) (hrc : rc ≠ 0)
    (hp : port_conflict_stderr stderr = false)
    (hn : name_conflict_stderr stderr = true) :
    launch_with_retry_aux O J E attempt (fuel + 1) cfg st evs =
      launch_with_retry_aux O J E (attempt + 1) fuel cfg st
        (evs ++ [.rmContainer cfg.docker_name, .sleep (2 ^ attempt * J attempt)]) := by
  simp only [launch_with_retry_aux, hO]
  rw [if_neg hrc, if_neg (by simp [hp]), if_pos (by simp [hn])]

/-- C8.  Classification of a failed `docker run` inside
`_launch_with_retry`, at any reachable point `(attempt, fuel)` of the
loop: (1) stderr matching neither pattern raises immediately — no sleep,
no state change; (2) stderr containing "port is already allocated" or
"address already in use" releases the name's ports, allocates a fresh
triple (with that attempt's oracle answers), writes it back into the
config, sleeps `2 ^ attempt * u_attempt` (where `u_attempt` is that
attempt's `random.uniform(1.5, 3.5)` draw) and retries; (3) stderr
containing the container-name conflict force-removes the container,
sleeps the same backoff and retries; (4) an exhausted loop raises; and
(5) with `max_retries = 3`, three straight name-conflict failures
perform exactly three attempts with backoff factors `2^0, 2^1, 2^2`
before giving up. -/
theorem launch_retry_classification (O : Nat → RunOutcome) (J : Nat → ℚ) (E : Nat → Env) :
    (∀ (attempt fuel : Nat) (cfg : LaunchCfg) (st : PortState) (evs : List LEvent)
        (rc : Int) (stderr : String),
      O attempt = .done rc stderr → rc ≠ 0 →
      port_conflict_stderr stderr = false → name_conflict_stderr stderr = false →
      launch_with_retry_aux O J E attempt (fuel + 1) cfg st evs =
        (.error (.dockerFailed stderr), st, evs)) ∧
    (∀ (attempt fuel : Nat) (cfg : LaunchCfg) (st : PortState) (evs : List LEvent)
        (rc : Int) (stderr : String) (st1 : PortState) (s d w : Nat) (st2 : PortState),
      O attempt = .done rc stderr → rc ≠ 0 →
      port_conflict_stderr stderr = true →
      release_ports cfg.docker_name st = .ok st1 →
      allocate_ports (E attempt) cfg.docker_name st1 = .ok ((s, d, w), st2) →
      launch_with_retry_aux O J E attempt (fuel + 1) cfg st evs =
        launch_with_retry_aux O J E (attempt + 1) fuel
          { cfg with server_port := s, debug_port := d, webrtc_port_start := w } st2
          (evs ++ [.releasedPorts cfg.docker_name,
            .allocatedPorts cfg.docker_name (s, d, w),
            .sleep (2 ^ attempt * J attempt)])) ∧
    (∀ (attempt fuel : Nat) (cfg : LaunchCfg) (st : PortState) (evs : List LEvent)
        (rc : Int) (stderr : String),
      O attempt = .done rc stderr → rc ≠ 0 →
      port_conflict_stderr stderr = false → name_conflict_stderr stderr = true →
      launch_with_retry_aux O J E attempt (fuel + 1) cfg st evs =
        launch_with_retry_aux O J E (attempt + 1) fuel cfg st
          (evs ++ [.rmContainer cfg.docker_name, .sleep (2 ^ attempt * J attempt)])) ∧
    (∀ (attempt : Nat) (cfg : LaunchCfg) (st : PortState) (evs : List LEvent),
      launch_with_retry_aux O J E attempt 0 cfg st evs =
        (.error .maxRetriesExceeded, st, evs)) ∧
    (∀ (cfg : LaunchCfg) (st : PortState),
      (∀ k, k < 3 → O k = .done 125 nameConflictMsg) →
      launch_with_retry O J E cfg st =
        (.error .maxRetriesExceeded, st,
          [.rmContainer cfg.docker_name, .sleep (2 ^ 0 * J 0),
           .rmContainer cfg.docker_name, .sleep (2 ^ 1 * J 1),
           .rmContainer cfg.docker_name, .sleep (2 ^ 2 * J 2)])) := by
  refine ⟨retry_step_other O J E, retry_step_port O J E, retry_step_name O J E,
    fun _ _ _ _ => rfl, ?_⟩
  intro cfg st hO
  have hp : port_conflict_stderr nameConflictMsg = false := rfl
  have hn : name_conflict_stderr nameConflictMsg = true := rfl
  rw [launch_with_retry]
  rw [retry_step_name O J E 0 2 cfg st [] 125 nameConflictMsg (hO 0 (by norm_num))
    (by decide) hp hn]
  rw [retry_step_name O J E 1 1 cfg st _ 125 nameConflictMsg (hO 1 (by norm_num))
    (by decide) hp hn]
  rw [retry_step_name O J E 2 0 cfg st _ 125 nameConflictMsg (hO 2 (by norm_num))
    (by decide) hp hn]
  simp
  rfl

/-- Witness for C8: an unclassified stderr fails on the first attempt
with no retry, no sleep and no state change. -/
theorem launch_retry_classification_w :
    launch_with_retry_aux (fun _ => .done 1 "some unknown docker failure") (fun _ => 2)
      (fun _ => allFreeEnv) 0 3 (LaunchCfg.mk "alpha" 8081 9224 52000) defaultPortState [] =
      (.error (.dockerFailed "some unknown docker failure"), defaultPortState, []) :=
  (launch_retry_classification (fun _ => .done 1 "some unknown docker failure") (fun _ => 2)
    (fun _ => allFreeEnv)).1 0 2 (LaunchCfg.mk "alpha" 8081 9224 52000) defaultPortState []
    1 "some unknown docker failure" rfl (by decide) rfl rfl

/-!  Lemmas for the launch rollback path. -/

theorem release_ports_of_valid (name : String) (st : PortState)
    (h : pyReMatchName name = true) :
    release_ports name st = .ok (maybe_reset_cursors (release_ports_unlocked name st)) := by
  rw [release_ports, if_neg (by simp [h])]

theorem release_ports_ok_lookup_none (name : String) (st st' : PortState)
    (h : release_ports name st = .ok st') : lookupA name st'.allocations = none := by
  rw [release_ports] at h
  split at h
  · exact absurd h (by simp)
  · injection h with h
    subst h
    rw [maybe_reset_allocations, release_unlocked_allocations]
    exact lookupA_eraseKey name st.allocations

theorem stop_docker_ok_events (psAll : Except Unit (List String)) (name : String)
    (st : PortState) (b : Bool) (st1 : PortState) (evs1 : List LEvent)
    (h : stop_docker psAll name st = .ok (b, st1, evs1)) :
    evs1 = [] ∨ evs1 = [.killContainer name, .rmContainer name, .releasedPorts name] := by
  rw [stop_docker.eq_def] at h
  split at h
  · exact absurd h (by simp)
  · split at h
    · split at h
      · exact absurd h (by simp)
      · injection h with h
        simp only [Prod.mk.injEq] at h
        exact .inr h.2.2.symm
    · injection h with h
      simp only [Prod.mk.injEq] at h
      exact .inl h.2.2.symm

/-- C9 counterexample.  A launch in which everything succeeds until the
readiness probe times out: the except-handler releases the ports (the
persisted state no longer holds `"alpha"`), but the trace shows the
container was started and never killed or removed — a container of the
failed name is left running, contrary to the claim. -/
theorem launch_readiness_failure_container_cex :
    launch readinessFailEnv "alpha" defaultPortState =
      (.error .readinessTimeout, defaultPortState,
        [.allocatedPorts "alpha" (8081, 9224, 52000), .cleanedProfile,
         .startedContainer "alpha", .releasedPorts "alpha"]) ∧
    lookupA "alpha" defaultPortState.allocations = none ∧
    containerLeftRunning "alpha"
      [.allocatedPorts "alpha" (8081, 9224, 52000), .cleanedProfile,
       .startedContainer "alpha", .releasedPorts "alpha"] = true :=
  ⟨rfl, rfl, rfl⟩

/-- C9, amended.  Every `launch` that fails after port allocation (the
trace contains the allocation event — in particular a readiness-probe
timeout) calls `_release_ports` for the container name before raising:
the persisted allocation map no longer contains the failed name and the
trace records the release.  The container itself is not stopped by this
failure path. -/
theorem launch_failure_after_alloc_releases (env : LaunchEnv) (name : String)
    (st : PortState) (e : LaunchErr) (st' : PortState) (evs : List LEvent)
    (h : launch env name st = (.error e, st', evs))
    (halloc : ∃ t, LEvent.allocatedPorts name t ∈ evs) :
    lookupA name st'.allocations = none ∧ LEvent.releasedPorts name ∈ evs := by
  obtain ⟨t, ht⟩ := halloc
  simp only [launch] at h
  split at h
  · simp only [Prod.mk.injEq] at h
    obtain ⟨-, -, hevs⟩ := h
    subst hevs
    simp at ht
  · split at h
    · simp only [Prod.mk.injEq] at h
      obtain ⟨-, -, hevs⟩ := h
      subst hevs
      simp at ht
    · rename_i b st1 evs1 hstop
      split at h
      · simp only [Prod.mk.injEq] at h
        obtain ⟨-, -, hevs⟩ := h
        subst hevs
        rcases stop_docker_ok_events _ _ _ _ _ _ hstop with h1 | h1 <;> subst h1 <;>
          simp at ht
      · rename_i s d w st2 hallocok
        have hval : pyReMatchName name = true :=
          (allocate_ports_ok_shape _ _ _ _ _ hallocok).1
        split at h
        · rename_i eR st3 evsR hretry
          rw [release_ports_of_valid name st3 hval] at h
          simp only [Prod.mk.injEq] at h
          obtain ⟨-, hst', hevs⟩ := h
          subst hevs
          constructor
          · rw [← hst']
            exact release_ports_ok_lookup_none name st3 _
              (release_ports_of_valid name st3 hval)
          · simp
        · rename_i cfg2 st3 evsR hretry
          split at h
          · simp only [Prod.mk.injEq] at h
            exact absurd h.1 (by simp)
          · rw [release_ports_of_valid name st3 hval] at h
            simp only [Prod.mk.injEq] at h
            obtain ⟨-, hst', hevs⟩ := h
            subst hevs
            constructor
            · rw [← hst']
              exact release_ports_ok_lookup_none name st3 _
                (release_ports_of_valid name st3 hval)
            · simp

/-- Witness for the amended C9 at the concrete readiness-timeout run. -/
theorem launch_failure_after_alloc_releases_w :
    lookupA "alpha" defaultPortState.allocations = none ∧
    LEvent.releasedPorts "alpha" ∈
      [LEvent.allocatedPorts "alpha" (8081, 9224, 52000), LEvent.cleanedProfile,
       LEvent.startedContainer "alpha", LEvent.releasedPorts "alpha"] :=
  launch_failure_after_alloc_releases readinessFailEnv "alpha" defaultPortState
    .readinessTimeout defaultPortState
    [.allocatedPorts "alpha" (8081, 9224, 52000), .cleanedProfile,
     .startedContainer "alpha", .releasedPorts "alpha"] rfl
    ⟨(8081, 9224, 52000), by simp⟩

end BrowserManager
